import Mathlib

/-!
Verification of the Epic Events CRM authorization / domain-invariant core.

The definitions below are a shallow embedding of the Python source:
`epicevents/app/auth/models.py` (User, Department, has_permission),
`epicevents/app/models/{client,contract,event}.py` (entities),
`epicevents/app/services/{client,contract,event}_service.py` (domain
services) and `epicevents/app/repositories/*.py` (in-memory database
semantics of `get_by_id`, `create`, `update`).

Modelling conventions:
- `Decimal` amounts are modelled as `ℚ` (exact arithmetic, as Decimal is).
- `datetime` values are modelled as `Int` timestamps (only their order is
  ever used by the code under verification).
- Timestamp bookkeeping columns (`created_at`, `updated_at`) and
  password/token fields are omitted: no service logic under verification
  reads them.
- Python `raise PermissionError(msg)` / `raise ValueError(msg)` become
  `Except.error` with a `PyError` carrying the same message.
- A repository-backed table is a `List` of rows; `session.get` /
  `get_by_id` is `List.find?` on the primary key, a committed update
  replaces the row with the matching id.
-/

namespace EpicEvents

/-- `Department` enum from `auth/models.py` (a `str` enum whose member
values equal the member names). -/
inductive Department
  | COMMERCIAL
  | SUPPORT
  | MANAGEMENT
deriving DecidableEq, Repr, Fintype

/-- The string value of a `Department` member (`Department` is a `str`
enum, so the dict in `has_permission` is keyed by these strings). -/
def Department.value : Department → String
  | .COMMERCIAL => "COMMERCIAL"
  | .SUPPORT => "SUPPORT"
  | .MANAGEMENT => "MANAGEMENT"

/-- `User` from `auth/models.py`, restricted to the fields the
authorization core reads (id, department, is_active). -/
structure User where
  id : Nat
  department : Department
  is_active : Bool
deriving DecidableEq, Repr

def User.is_management (u : User) : Bool :=
  u.department == Department.MANAGEMENT

def User.is_commercial (u : User) : Bool :=
  u.department == Department.COMMERCIAL

def User.is_support (u : User) : Bool :=
  u.department == Department.SUPPORT

/-- The nested dict lookup `permissions.get(dept, {}).get(action, [])`
from `User.has_permission` in `auth/models.py`, with the dict literal
transcribed verbatim.  A missing department key or a missing action key
yields the empty list, exactly as the two `.get` defaults do. -/
def permissionsGet (dept action : String) : List String :=
  if dept = "MANAGEMENT" then
    if action = "create" then ["user", "contract", "event"]
    else if action = "update" then ["user", "contract", "event"]
    else if action = "delete" then ["user"]
    else if action = "read" then ["user", "client", "contract", "event"]
    else []
  else if dept = "COMMERCIAL" then
    if action = "create" then ["client", "event"]
    else if action = "update" then ["client", "contract"]
    else if action = "delete" then []
    else if action = "read" then ["client", "contract", "event"]
    else []
  else if dept = "SUPPORT" then
    if action = "create" then []
    else if action = "update" then ["event"]
    else if action = "delete" then []
    else if action = "read" then ["client", "contract", "event"]
    else []
  else []

/-- `resource in allowed_resources`, the final line of
`User.has_permission`. -/
def hasPermissionOf (dept action resource : String) : Bool :=
  (permissionsGet dept action).contains resource

/-- `User.has_permission(action, resource)` from `auth/models.py`. -/
def User.has_permission (u : User) (action resource : String) : Bool :=
  hasPermissionOf u.department.value action resource

/-- The four actions of the fixed permission space (spec §4.1). -/
inductive SpecAction
  | create
  | read
  | update
  | delete
deriving DecidableEq, Repr, Fintype

def SpecAction.value : SpecAction → String
  | .create => "create"
  | .read => "read"
  | .update => "update"
  | .delete => "delete"

/-- The four resource kinds of the fixed permission space (spec §4.1). -/
inductive SpecResource
  | user
  | client
  | contract
  | event
deriving DecidableEq, Repr, Fintype

def SpecResource.value : SpecResource → String
  | .user => "user"
  | .client => "client"
  | .contract => "contract"
  | .event => "event"

/-- The permission table of spec §4.1, written from the spec's words (row
by row), to be compared with the source's `has_permission`. -/
def specAllows (d : Department) (a : SpecAction) (r : SpecResource) : Bool :=
  match d, a with
  | .MANAGEMENT, .create => [SpecResource.user, .contract, .event].contains r
  | .MANAGEMENT, .update => [SpecResource.user, .contract, .event].contains r
  | .MANAGEMENT, .delete => [SpecResource.user].contains r
  | .MANAGEMENT, .read => [SpecResource.user, .client, .contract, .event].contains r
  | .COMMERCIAL, .create => [SpecResource.client, .event].contains r
  | .COMMERCIAL, .update => [SpecResource.client, .contract].contains r
  | .COMMERCIAL, .delete => false
  | .COMMERCIAL, .read => [SpecResource.client, .contract, .event].contains r
  | .SUPPORT, .create => false
  | .SUPPORT, .update => [SpecResource.event].contains r
  | .SUPPORT, .delete => false
  | .SUPPORT, .read => [SpecResource.client, .contract, .event].contains r

/-- `Client` from `models/client.py`, restricted to the columns the
services read and write (timestamps omitted). -/
structure Client where
  id : Nat
  full_name : String
  email : String
  phone : String
  company_name : String
  commercial_id : Option Nat
deriving DecidableEq, Repr

/-- `Contract` from `models/contract.py` (timestamps omitted; `Decimal`
amounts as `ℚ`). -/
structure Contract where
  id : Nat
  total_amount : ℚ
  amount_due : ℚ
  signed : Bool
  client_id : Nat
  commercial_id : Option Nat
deriving DecidableEq, Repr

/-- Derived `Contract.amount_paid` property. -/
def Contract.amount_paid (c : Contract) : ℚ :=
  c.total_amount - c.amount_due

/-- `Contract.sign_contract` from `models/contract.py`: sets `signed`. -/
def Contract.sign_contract (c : Contract) : Contract :=
  { c with signed := true }

/-- `Contract.update_payment(amount_paid)` from `models/contract.py`:
`self.amount_due = max(Decimal(0), self.total_amount - amount_paid)`. -/
def Contract.update_payment (c : Contract) (amount_paid : ℚ) : Contract :=
  { c with amount_due := max 0 (c.total_amount - amount_paid) }

/-- `Event` from `models/event.py` (datetimes as `Int` timestamps). -/
structure Event where
  id : Nat
  name : String
  event_date_start : Int
  event_date_end : Int
  location : String
  attendees : Int
  notes : Option String
  contract_id : Nat
  support_contact_id : Option Nat
deriving DecidableEq, Repr

/-- `Event.assign_support` from `models/event.py`. -/
def Event.assign_support (e : Event) (support_user_id : Nat) : Event :=
  { e with support_contact_id := some support_user_id }

/-- The persisted state: one list of rows per table. -/
structure DB where
  users : List User
  clients : List Client
  contracts : List Contract
  events : List Event
deriving DecidableEq, Repr

/-- `session.get(User, id)` / `get_by_id`. -/
def DB.getUser (db : DB) (i : Nat) : Option User :=
  db.users.find? (fun u => u.id == i)

/-- `ClientRepository.get_by_id`. -/
def DB.getClient (db : DB) (i : Nat) : Option Client :=
  db.clients.find? (fun c => c.id == i)

/-- `ClientRepository.get_by_email` (`.first()` on the matching rows). -/
def DB.getClientByEmail (db : DB) (email : String) : Option Client :=
  db.clients.find? (fun c => c.email == email)

/-- `ContractRepository.get_by_id`. -/
def DB.getContract (db : DB) (i : Nat) : Option Contract :=
  db.contracts.find? (fun c => c.id == i)

/-- `EventRepository.get_by_id`. -/
def DB.getEvent (db : DB) (i : Nat) : Option Event :=
  db.events.find? (fun e => e.id == i)

/-- Committing a mutated `Client` row: the row with the same primary key
is replaced. -/
def DB.setClient (db : DB) (c : Client) : DB :=
  { db with clients := db.clients.map (fun x => if x.id == c.id then c else x) }

/-- Committing a mutated `Contract` row. -/
def DB.setContract (db : DB) (c : Contract) : DB :=
  { db with contracts := db.contracts.map (fun x => if x.id == c.id then c else x) }

/-- Committing a mutated `Event` row. -/
def DB.setEvent (db : DB) (e : Event) : DB :=
  { db with events := db.events.map (fun x => if x.id == e.id then e else x) }

/-- Autoincrement primary key for a freshly inserted contract row. -/
def DB.nextContractId (db : DB) : Nat :=
  db.contracts.foldr (fun c m => max (c.id + 1) m) 1

/-- Autoincrement primary key for a freshly inserted event row. -/
def DB.nextEventId (db : DB) : Nat :=
  db.events.foldr (fun e m => max (e.id + 1) m) 1

/-- Python exceptions raised by the services: `PermissionError` and
`ValueError`, with their message. -/
inductive PyError
  | permissionError (msg : String)
  | valueError (msg : String)
deriving DecidableEq, Repr

/-- `ContractService.create_contract` from `services/contract_service.py`. -/
def ContractService.create_contract (client_id : Nat)
    (total_amount amount_due : ℚ) (commercial_id : Nat)
    (current_user : User) (db : DB) : Except PyError (Contract × DB) :=
  if !(current_user.has_permission "create" "contract") then
    .error (.permissionError "You don\x27t have permission to create contracts")
  else
    match db.getClient client_id with
    | none => .error (.valueError s!"Client with ID {client_id} not found")
    | some _ =>
      let c : Contract :=
        { id := db.nextContractId, total_amount := total_amount,
          amount_due := amount_due, signed := false,
          client_id := client_id, commercial_id := some commercial_id }
      .ok (c, { db with contracts := db.contracts ++ [c] })

/-- `ContractService.update_contract` from `services/contract_service.py`.
The `update_data` dict built from the non-`None` arguments is applied by
`BaseRepository.update` via `setattr`. -/
def ContractService.update_contract (contract_id : Nat) (current_user : User)
    (total_amount amount_due : Option ℚ) (signed : Option Bool)
    (db : DB) : Except PyError (Contract × DB) :=
  match db.getContract contract_id with
  | none => .error (.valueError s!"Contract with ID {contract_id} not found")
  | some contract =>
    if current_user.is_commercial && !(contract.commercial_id == some current_user.id) then
      .error (.permissionError "You can only update contracts for your clients")
    else if !current_user.is_commercial && !current_user.is_management then
      .error (.permissionError "You don\x27t have permission to update contracts")
    else
      let c1 := match total_amount with
        | some t => { contract with total_amount := t }
        | none => contract
      let c2 := match amount_due with
        | some a => { c1 with amount_due := a }
        | none => c1
      let c3 := match signed with
        | some s => { c2 with signed := s }
        | none => c2
      .ok (c3, db.setContract c3)

/-- `ContractService.sign_contract` from `services/contract_service.py`. -/
def ContractService.sign_contract (contract_id : Nat) (current_user : User)
    (db : DB) : Except PyError (Contract × DB) :=
  match db.getContract contract_id with
  | none => .error (.valueError s!"Contract with ID {contract_id} not found")
  | some contract =>
    if current_user.is_commercial && !(contract.commercial_id == some current_user.id) then
      .error (.permissionError "You can only sign contracts for your clients")
    else if !current_user.is_commercial && !current_user.is_management then
      .error (.permissionError "You don\x27t have permission to sign contracts")
    else if contract.signed then
      .error (.valueError "Contract is already signed")
    else
      let c := contract.sign_contract
      .ok (c, db.setContract c)

/-- `ContractService.update_payment` from `services/contract_service.py`:
ownership gate, then `ContractRepository.update_payment`, which applies
`Contract.update_payment` and commits. -/
def ContractService.update_payment (contract_id : Nat) (amount_paid : ℚ)
    (current_user : User) (db : DB) : Except PyError (Contract × DB) :=
  match db.getContract contract_id with
  | none => .error (.valueError s!"Contract with ID {contract_id} not found")
  | some contract =>
    if current_user.is_commercial && !(contract.commercial_id == some current_user.id) then
      .error (.permissionError "You can only update payments for your contracts")
    else if !current_user.is_commercial && !current_user.is_management then
      .error (.permissionError "You don\x27t have permission to update payments")
    else
      let c := contract.update_payment amount_paid
      .ok (c, db.setContract c)

/-- The field assignments performed for `ClientService.update_client` by
`BaseRepository.update` from the `update_data` dict: every non-`None`
argument is applied, except that `commercial_id` enters `update_data`
only when the caller `is_management`. -/
def applyClientUpdate (client : Client) (current_user : User)
    (full_name email phone company_name : Option String)
    (commercial_id : Option Nat) : Client :=
  let c := match full_name with
    | some v => { client with full_name := v }
    | none => client
  let c := match email with
    | some v => { c with email := v }
    | none => c
  let c := match phone with
    | some v => { c with phone := v }
    | none => c
  let c := match company_name with
    | some v => { c with company_name := v }
    | none => c
  match commercial_id with
  | some v => if current_user.is_management then { c with commercial_id := some v } else c
  | none => c

/-- `ClientService.update_client` from `services/client_service.py`.
The `if email and email != client.email` uniqueness guard keeps Python
string truthiness: an empty-string email skips the guard. -/
def ClientService.update_client (client_id : Nat) (current_user : User)
    (full_name email phone company_name : Option String)
    (commercial_id : Option Nat) (db : DB) : Except PyError (Client × DB) :=
  match db.getClient client_id with
  | none => .error (.valueError s!"Client with ID {client_id} not found")
  | some client =>
    if current_user.is_commercial && !(client.commercial_id == some current_user.id) then
      .error (.permissionError "You can only update your own clients")
    else if !current_user.is_commercial && !current_user.is_management then
      .error (.permissionError "You don\x27t have permission to update clients")
    else
      let emailConflict := match email with
        | some e => e != "" && e != client.email && (db.getClientByEmail e).isSome
        | none => false
      if emailConflict then
        .error (.valueError ("Email " ++ email.getD "" ++ " is already in use"))
      else
        let c := applyClientUpdate client current_user
          full_name email phone company_name commercial_id
        .ok (c, db.setClient c)

/-- The field assignments performed for `EventService.update_event` by
`BaseRepository.update`: every non-`None` argument is applied. -/
def applyEventUpdate (event : Event) (name : Option String)
    (event_date_start event_date_end : Option Int) (location : Option String)
    (attendees : Option Int) (notes : Option String) : Event :=
  let e := match name with
    | some v => { event with name := v }
    | none => event
  let e := match event_date_start with
    | some v => { e with event_date_start := v }
    | none => e
  let e := match event_date_end with
    | some v => { e with event_date_end := v }
    | none => e
  let e := match location with
    | some v => { e with location := v }
    | none => e
  let e := match attendees with
    | some v => { e with attendees := v }
    | none => e
  match notes with
  | some v => { e with notes := v }
  | none => e

/-- `EventService.create_event` from `services/event_service.py`: coarse
permission check, contract fetch, signed-contract gate, then the
ownership gate for COMMERCIAL callers, then insertion. -/
def EventService.create_event (name : String) (contract_id : Nat)
    (event_date_start event_date_end : Int) (location : String)
    (attendees : Int) (notes : Option String) (current_user : User)
    (db : DB) : Except PyError (Event × DB) :=
  if !(current_user.has_permission "create" "event") then
    .error (.permissionError "You don\x27t have permission to create events")
  else
    match db.getContract contract_id with
    | none => .error (.valueError s!"Contract with ID {contract_id} not found")
    | some contract =>
      if !contract.signed then
        .error (.valueError "Cannot create event for unsigned contract")
      else if current_user.is_commercial && !(contract.commercial_id == some current_user.id) then
        .error (.permissionError "You can only create events for your contracts")
      else
        let e : Event :=
          { id := db.nextEventId, name := name,
            event_date_start := event_date_start,
            event_date_end := event_date_end, location := location,
            attendees := attendees, notes := notes,
            contract_id := contract_id, support_contact_id := none }
        .ok (e, { db with events := db.events ++ [e] })

/-- `EventService.update_event` from `services/event_service.py`. -/
def EventService.update_event (event_id : Nat) (current_user : User)
    (name : Option String) (event_date_start event_date_end : Option Int)
    (location : Option String) (attendees : Option Int)
    (notes : Option String) (db : DB) : Except PyError (Event × DB) :=
  match db.getEvent event_id with
  | none => .error (.valueError s!"Event with ID {event_id} not found")
  | some event =>
    if current_user.is_support && !(event.support_contact_id == some current_user.id) then
      .error (.permissionError "You can only update events assigned to you")
    else if !current_user.is_support && !current_user.is_management then
      .error (.permissionError "You don\x27t have permission to update events")
    else
      let e := applyEventUpdate event name event_date_start event_date_end
        location attendees notes
      .ok (e, db.setEvent e)

/-- `decode_access_token` applied to the integer `support_contact_id`
that `EventService.assign_support_contact` passes to
`AuthService.get_current_user`.  `jwt.decode` raises `DecodeError` (a
subclass of `InvalidTokenError`) whenever its token argument is not
`str`/`bytes`, and `decode_access_token` catches `InvalidTokenError` and
returns `None`; so for an integer argument the decoded payload is always
`None`. -/
def decode_access_token_intArg (support_contact_id : Nat) : Option Nat :=
  none

/-- `AuthService.get_current_user` from `auth/service.py`, as invoked by
`assign_support_contact` with the integer `support_contact_id` in the
token position: decode the token (always `None` for an integer, see
`decode_access_token_intArg`), extract `user_id`, fetch the `User`. -/
def AuthService.get_current_user_intArg (support_contact_id : Nat)
    (db : DB) : Option User :=
  match decode_access_token_intArg support_contact_id with
  | none => none
  | some user_id => db.getUser user_id

/-- `EventService.assign_support_contact` from
`services/event_service.py`: management-only gate, target lookup through
`AuthService.get_current_user(support_contact_id)`, `is_support` check,
event fetch, then `EventRepository.assign_support_contact`. -/
def EventService.assign_support_contact (event_id support_contact_id : Nat)
    (current_user : User) (db : DB) : Except PyError (Event × DB) :=
  if !current_user.is_management then
    .error (.permissionError "Only management can assign support contacts")
  else
    match AuthService.get_current_user_intArg support_contact_id db with
    | none => .error (.valueError "Invalid support contact ID")
    | some support_user =>
      if !support_user.is_support then
        .error (.valueError "Invalid support contact ID")
      else
        match db.getEvent event_id with
        | none => .error (.valueError s!"Event with ID {event_id} not found")
        | some event =>
          let e := event.assign_support support_contact_id
          .ok (e, db.setEvent e)

/-- The event row inserted by a successful `EventService.create_event`
(`EventRepository.create` with an autoincremented primary key and no
support contact). -/
def newEventRow (db : DB) (name : String) (contract_id : Nat)
    (event_date_start event_date_end : Int) (location : String)
    (attendees : Int) (notes : Option String) : Event :=
  { id := db.nextEventId, name := name,
    event_date_start := event_date_start, event_date_end := event_date_end,
    location := location, attendees := attendees, notes := notes,
    contract_id := contract_id, support_contact_id := none }

/-! Concrete fixtures used to instantiate the theorems. -/

/-- A MANAGEMENT user. -/
def mgmtUser : User := { id := 1, department := .MANAGEMENT, is_active := true }

/-- A COMMERCIAL user who owns `clientA` and both contracts. -/
def commUser : User := { id := 2, department := .COMMERCIAL, is_active := true }

/-- An active SUPPORT user, assigned to `eventA`. -/
def suppUser : User := { id := 3, department := .SUPPORT, is_active := true }

/-- A COMMERCIAL user who owns nothing. -/
def otherCommUser : User := { id := 5, department := .COMMERCIAL, is_active := true }

/-- A SUPPORT user with no assigned events. -/
def otherSuppUser : User := { id := 6, department := .SUPPORT, is_active := true }

/-- A client owned by `commUser`. -/
def clientA : Client :=
  { id := 1, full_name := "Alice Durand", email := "alice@corp.example",
    phone := "+33100000000", company_name := "Corp", commercial_id := some 2 }

/-- A signed contract of `clientA`, managed by `commUser`, with
`total_amount` 10000 and `amount_due` 5000. -/
def signedContractA : Contract :=
  { id := 1, total_amount := 10000, amount_due := 5000, signed := true,
    client_id := 1, commercial_id := some 2 }

/-- An unsigned sibling contract of `clientA`, managed by `commUser`. -/
def unsignedContractB : Contract :=
  { id := 2, total_amount := 8000, amount_due := 8000, signed := false,
    client_id := 1, commercial_id := some 2 }

/-- An event on `signedContractA`, assigned to `suppUser`. -/
def eventA : Event :=
  { id := 1, name := "Gala", event_date_start := 100, event_date_end := 200,
    location := "Paris", attendees := 50, notes := none,
    contract_id := 1, support_contact_id := some 3 }

/-- The concrete database the witnesses and counterexamples run on. -/
def baseDB : DB :=
  { users := [mgmtUser, commUser, suppUser, otherCommUser, otherSuppUser],
    clients := [clientA],
    contracts := [signedContractA, unsignedContractB],
    events := [eventA] }

/-- The event row produced by the C9 counterexample call: its start
timestamp 5 is not before its end timestamp 3. -/
def badEvent : Event :=
  { id := 2, name := "Launch", event_date_start := 5, event_date_end := 3,
    location := "Paris", attendees := 10, notes := none,
    contract_id := 1, support_contact_id := none }

end EpicEvents

namespace EpicEvents

/-- `List.find?` by primary key after replacing the row whose key equals
the key of `c`: when the original lookup found `c0` and `c` carries the
same key, the lookup now finds `c`. -/
theorem find_replace_by_id {α : Type} (idf : α → Nat) (l : List α) (i : Nat)
    (c0 c : α) (h : l.find? (fun x => idf x == i) = some c0)
    (hid : idf c = idf c0) :
    (l.map (fun x => if idf x == idf c then c else x)).find?
        (fun x => idf x == i) = some c := by
  induction l with
  | nil => simp at h
  | cons x t ih =>
    cases hx : (idf x == i) with
    | true =>
      simp only [List.find?_cons, hx] at h
      have hxc0 : x = c0 := by
        injection h
      subst hxc0
      have hxi : idf x = i := by
        simpa using hx
      have hcc : (idf x == idf c) = true := by
        simp [hid]
      have hci : (idf c == i) = true := by
        simp [hid, hxi]
      simp only [List.map_cons, hcc, if_true, List.find?_cons, hci]
    | false =>
      simp only [List.find?_cons, hx] at h
      have hc0i : idf c0 = i := by
        simpa using List.find?_some h
      have hxc : (idf x == idf c) = false := by
        have hxi : ¬ idf x = i := by
          simpa using hx
        simp only [hid, hc0i]
        simpa using hxi
      simp only [List.map_cons, hxc, Bool.false_eq_true, if_false, List.find?_cons, hx]
      exact ih h

/-- Re-fetching a contract after committing a same-key update returns the
updated row. -/
theorem DB.getContract_setContract (db : DB) (i : Nat) (c0 c : Contract)
    (h : db.getContract i = some c0) (hid : c.id = c0.id) :
    (db.setContract c).getContract i = some c :=
  find_replace_by_id Contract.id db.contracts i c0 c h hid

/-- C1: over the fixed 3×4×4 space the source's permission check agrees
with the §4.1 table in all 48 cases (which includes deny for every listed
(action, resource) pair the table leaves blank), and every input outside
that space — an unknown department string, an unknown action string, or a
resource string other than the four known ones (so any unlisted
(action, resource) pair) — evaluates to deny (fail closed). -/
theorem permission_matrix_matches_spec :
    (∀ (d : Department) (a : SpecAction) (r : SpecResource),
        hasPermissionOf d.value a.value r.value = specAllows d a r)
    ∧ (∀ dept action resource : String,
        dept ≠ "MANAGEMENT" → dept ≠ "COMMERCIAL" → dept ≠ "SUPPORT" →
        hasPermissionOf dept action resource = false)
    ∧ (∀ (d : Department) (action resource : String),
        action ≠ "create" → action ≠ "read" → action ≠ "update" → action ≠ "delete" →
        hasPermissionOf d.value action resource = false)
    ∧ (∀ dept action resource : String,
        resource ≠ "user" → resource ≠ "client" → resource ≠ "contract" →
        resource ≠ "event" →
        hasPermissionOf dept action resource = false) := by
  refine ⟨by decide, ?_, ?_, ?_⟩
  · intro dept action resource h1 h2 h3
    simp [hasPermissionOf, permissionsGet, h1, h2, h3]
  · intro d action resource h1 h2 h3 h4
    cases d <;>
      simp [hasPermissionOf, permissionsGet, Department.value, h1, h2, h3, h4]
  · intro dept action resource h1 h2 h3 h4
    unfold hasPermissionOf permissionsGet
    split_ifs <;> simp [h1, h2, h3, h4]

/-- Witness for C1: unknown department "HR", unknown action "archive",
and the known action "update" with the unlisted resource "gadget" are all
denied. -/
theorem permission_matrix_matches_spec_witness :
    hasPermissionOf "HR" "create" "user" = false
    ∧ hasPermissionOf Department.MANAGEMENT.value "archive" "user" = false
    ∧ hasPermissionOf "MANAGEMENT" "update" "gadget" = false :=
  ⟨permission_matrix_matches_spec.2.1 "HR" "create" "user"
      (by decide) (by decide) (by decide),
   permission_matrix_matches_spec.2.2.1 Department.MANAGEMENT "archive" "user"
      (by decide) (by decide) (by decide) (by decide),
   permission_matrix_matches_spec.2.2.2 "MANAGEMENT" "update" "gadget"
      (by decide) (by decide) (by decide) (by decide)⟩

/-- C2 counterexample: on `signedContractA` (`total_amount` 10000,
`amount_due` 5000) a payment argument of 2000 yields `amount_due` 8000,
whereas the claimed formula `max(0, amount_due - amount)` yields 3000, so
the claim's formula does not describe `update_payment`. -/
theorem record_payment_formula_counterexample :
    (signedContractA.update_payment 2000).amount_due = 8000
    ∧ max 0 (signedContractA.amount_due - 2000) = 3000
    ∧ (signedContractA.update_payment 2000).amount_due
        ≠ max 0 (signedContractA.amount_due - 2000) := by
  have h1 : (signedContractA.update_payment 2000).amount_due = 8000 := by
    show max 0 ((10000 : ℚ) - 2000) = 8000
    rw [max_eq_right (by norm_num : (0 : ℚ) ≤ 10000 - 2000)]
    norm_num
  have h2 : max 0 (signedContractA.amount_due - 2000) = 3000 := by
    show max 0 ((5000 : ℚ) - 2000) = 3000
    rw [max_eq_right (by norm_num : (0 : ℚ) ≤ 5000 - 2000)]
    norm_num
  refine ⟨h1, h2, ?_⟩
  rw [h1, h2]
  norm_num

/-- C2 amended: `update_payment(amount_paid)` sets `amount_due` to
`max(0, total_amount - amount_paid)` — the argument is the cumulative
amount paid toward the total, not an increment to subtract from the
current balance.  The result is never negative, the other fields are
untouched, the service call does not fail for an authorized caller, and
the spec's concrete example (total 10000, due 5000, payment 20000) still
clamps to 0. -/
theorem record_payment_clamps_to_total :
    (∀ (c : Contract) (amount_paid : ℚ),
        (c.update_payment amount_paid).amount_due
            = max 0 (c.total_amount - amount_paid)
        ∧ 0 ≤ (c.update_payment amount_paid).amount_due
        ∧ (c.update_payment amount_paid).signed = c.signed
        ∧ (c.update_payment amount_paid).total_amount = c.total_amount)
    ∧ (∀ (contract_id : Nat) (amt : ℚ) (u : User) (db : DB) (c0 : Contract),
        db.getContract contract_id = some c0 →
        (u.is_management = true
          ∨ (u.is_commercial = true ∧ c0.commercial_id = some u.id)) →
        ContractService.update_payment contract_id amt u db
          = .ok (c0.update_payment amt, db.setContract (c0.update_payment amt)))
    ∧ (signedContractA.update_payment 20000).amount_due = 0 := by
  have hex : (signedContractA.update_payment 20000).amount_due = 0 := by
    show max 0 ((10000 : ℚ) - 20000) = 0
    rw [max_eq_left (by norm_num : (10000 : ℚ) - 20000 ≤ 0)]
  refine ⟨?_, ?_, hex⟩
  · intro c amount_paid
    refine ⟨rfl, le_max_left 0 _, rfl, rfl⟩
  · intro contract_id amt u db c0 h hauth
    unfold ContractService.update_payment
    rw [h]
    rcases hauth with hm | ⟨hc, hown⟩
    · have hm' : u.department = .MANAGEMENT := by
        simpa [User.is_management] using hm
      simp [User.is_commercial, User.is_management, hm']
    · have hc' : u.department = .COMMERCIAL := by
        simpa [User.is_commercial] using hc
      simp [User.is_commercial, User.is_management, hc', hown]

/-- C2 witness: management records a cumulative payment of 20000 on
`signedContractA` in `baseDB`; the service succeeds and commits the
clamped contract. -/
theorem record_payment_clamps_to_total_witness :
    ContractService.update_payment 1 20000 mgmtUser baseDB
      = .ok (signedContractA.update_payment 20000,
             baseDB.setContract (signedContractA.update_payment 20000)) :=
  record_payment_clamps_to_total.2.1 1 20000 mgmtUser baseDB signedContractA
    rfl (Or.inl rfl)

/-- C3: `create_event` on an existing unsigned contract fails with
`ValueError "Cannot create event for unsigned contract"` for every
caller that passes the coarse create-event permission check, never
creates an event for any caller, and in particular a COMMERCIAL caller
who does not own the contract receives the unsigned-contract domain
failure, not the ownership failure. -/
theorem create_event_unsigned_contract :
    (∀ (name : String) (contract_id : Nat) (ds de : Int) (loc : String)
        (att : Int) (notes : Option String) (u : User) (db : DB) (c : Contract),
        db.getContract contract_id = some c → c.signed = false →
        u.has_permission "create" "event" = true →
        EventService.create_event name contract_id ds de loc att notes u db
          = .error (.valueError "Cannot create event for unsigned contract"))
    ∧ (∀ (name : String) (contract_id : Nat) (ds de : Int) (loc : String)
        (att : Int) (notes : Option String) (u : User) (db : DB) (c : Contract)
        (r : Event × DB),
        db.getContract contract_id = some c → c.signed = false →
        EventService.create_event name contract_id ds de loc att notes u db
          ≠ .ok r)
    ∧ (∀ (name : String) (contract_id : Nat) (ds de : Int) (loc : String)
        (att : Int) (notes : Option String) (u : User) (db : DB) (c : Contract),
        db.getContract contract_id = some c → c.signed = false →
        u.department = .COMMERCIAL → c.commercial_id ≠ some u.id →
        EventService.create_event name contract_id ds de loc att notes u db
          = .error (.valueError "Cannot create event for unsigned contract")) := by
  have key : ∀ (name : String) (contract_id : Nat) (ds de : Int) (loc : String)
      (att : Int) (notes : Option String) (u : User) (db : DB) (c : Contract),
      db.getContract contract_id = some c → c.signed = false →
      u.has_permission "create" "event" = true →
      EventService.create_event name contract_id ds de loc att notes u db
        = .error (.valueError "Cannot create event for unsigned contract") := by
    intro name contract_id ds de loc att notes u db c h hsigned hperm
    unfold EventService.create_event
    rw [h]
    simp [hperm, hsigned]
  refine ⟨key, ?_, ?_⟩
  · intro name contract_id ds de loc att notes u db c r h hsigned
    cases hp : u.has_permission "create" "event" with
    | false =>
      unfold EventService.create_event
      simp [hp]
    | true =>
      rw [key name contract_id ds de loc att notes u db c h hsigned hp]
      simp
  · intro name contract_id ds de loc att notes u db c h hsigned hdep hown
    refine key name contract_id ds de loc att notes u db c h hsigned ?_
    simp only [User.has_permission, hdep]
    decide

/-- C3 witness: `otherCommUser` (COMMERCIAL, does not own
`unsignedContractB`) gets the unsigned-contract domain failure. -/
theorem create_event_unsigned_contract_witness :
    EventService.create_event "Launch" 2 100 200 "Paris" 10 none
        otherCommUser baseDB
      = .error (.valueError "Cannot create event for unsigned contract") :=
  create_event_unsigned_contract.2.2 "Launch" 2 100 200 "Paris" 10 none
    otherCommUser baseDB unsignedContractB rfl rfl rfl (by decide)

/-- C4: for an authorized caller (management, or the owning commercial),
signing an existing UNSIGNED contract succeeds and sets `signed := true`;
immediately signing the same contract again on the resulting state fails
with `ValueError "Contract is already signed"` — the second call does not
silently succeed. -/
theorem sign_contract_non_idempotent :
    ∀ (contract_id : Nat) (u : User) (db : DB) (c0 : Contract),
      db.getContract contract_id = some c0 →
      (u.is_management = true
        ∨ (u.is_commercial = true ∧ c0.commercial_id = some u.id)) →
      c0.signed = false →
      ContractService.sign_contract contract_id u db
          = .ok (c0.sign_contract, db.setContract c0.sign_contract)
        ∧ c0.sign_contract.signed = true
        ∧ ContractService.sign_contract contract_id u
            (db.setContract c0.sign_contract)
          = .error (.valueError "Contract is already signed") := by
  intro contract_id u db c0 h hauth hunsigned
  have h2 : (db.setContract c0.sign_contract).getContract contract_id
      = some c0.sign_contract :=
    DB.getContract_setContract db contract_id c0 c0.sign_contract h rfl
  rcases hauth with hm | ⟨hc, hown⟩
  · have hm' : u.department = .MANAGEMENT := by
      simpa [User.is_management] using hm
    refine ⟨?_, rfl, ?_⟩
    · unfold ContractService.sign_contract
      rw [h]
      simp [User.is_commercial, User.is_management, hm', hunsigned]
    · unfold ContractService.sign_contract
      rw [h2]
      simp [User.is_commercial, User.is_management, hm', Contract.sign_contract]
  · have hc' : u.department = .COMMERCIAL := by
      simpa [User.is_commercial] using hc
    refine ⟨?_, rfl, ?_⟩
    · unfold ContractService.sign_contract
      rw [h]
      simp [User.is_commercial, User.is_management, hc', hown, hunsigned]
    · unfold ContractService.sign_contract
      rw [h2]
      simp [User.is_commercial, User.is_management, hc', hown,
        Contract.sign_contract]

/-- C4 witness: management signs `unsignedContractB` in `baseDB`, the
result is signed, and a second sign attempt on the committed state fails
with the already-signed violation. -/
theorem sign_contract_non_idempotent_witness :
    ContractService.sign_contract 2 mgmtUser baseDB
        = .ok (unsignedContractB.sign_contract,
               baseDB.setContract unsignedContractB.sign_contract)
      ∧ unsignedContractB.sign_contract.signed = true
      ∧ ContractService.sign_contract 2 mgmtUser
          (baseDB.setContract unsignedContractB.sign_contract)
        = .error (.valueError "Contract is already signed") :=
  sign_contract_non_idempotent 2 mgmtUser baseDB unsignedContractB
    rfl (Or.inl rfl) rfl

/-- C5 counterexample: `update_contract` called by management with
`signed := some false` on the signed contract `signedContractA` succeeds
and commits the contract with `signed = false` — the public surface can
reverse `signed` from true back to false. -/
theorem contract_unsign_counterexample :
    signedContractA.signed = true
    ∧ ContractService.update_contract 1 mgmtUser none none (some false) baseDB
        = .ok ({ signedContractA with signed := false },
               baseDB.setContract { signedContractA with signed := false })
    ∧ ({ signedContractA with signed := false } : Contract).signed = false :=
  ⟨rfl, rfl, rfl⟩

/-- C5 amended: `create_contract` only creates unsigned contracts;
`sign_contract` only ever moves `signed` from false to true;
`update_payment` never changes `signed`; but `update_contract` sets
`signed` to exactly its optional `signed` argument when one is supplied
(and preserves it otherwise), so the false→true-only rule holds for every
operation except `update_contract`, which can reverse `signed` to false
when explicitly asked to.  A committed update only replaces the row with
the updated contract's id. -/
theorem contract_signed_lifecycle :
    (∀ (client_id : Nat) (ta ad : ℚ) (cid : Nat) (u : User) (db : DB)
        (c : Contract) (db' : DB),
        ContractService.create_contract client_id ta ad cid u db = .ok (c, db') →
        c.signed = false)
    ∧ (∀ (contract_id : Nat) (u : User) (db : DB) (c0 c : Contract) (db' : DB),
        db.getContract contract_id = some c0 →
        ContractService.sign_contract contract_id u db = .ok (c, db') →
        c0.signed = false ∧ c.signed = true ∧ c.id = c0.id
          ∧ db' = db.setContract c)
    ∧ (∀ (contract_id : Nat) (amt : ℚ) (u : User) (db : DB) (c0 c : Contract)
        (db' : DB),
        db.getContract contract_id = some c0 →
        ContractService.update_payment contract_id amt u db = .ok (c, db') →
        c.signed = c0.signed ∧ c.id = c0.id ∧ db' = db.setContract c)
    ∧ (∀ (contract_id : Nat) (u : User) (ta ad : Option ℚ) (sg : Option Bool)
        (db : DB) (c0 c : Contract) (db' : DB),
        db.getContract contract_id = some c0 →
        ContractService.update_contract contract_id u ta ad sg db = .ok (c, db') →
        c.signed = sg.getD c0.signed ∧ c.id = c0.id ∧ db' = db.setContract c)
    ∧ (∀ (db : DB) (c x : Contract), x ∈ (db.setContract c).contracts →
        x = c ∨ x ∈ db.contracts) := by
  refine ⟨?_, ?_, ?_, ?_, ?_⟩
  · intro client_id ta ad cid u db c db' hok
    unfold ContractService.create_contract at hok
    split at hok
    · exact absurd hok (by simp)
    · split at hok
      · exact absurd hok (by simp)
      · simp only [Except.ok.injEq, Prod.mk.injEq] at hok
        obtain ⟨hc1, hd1⟩ := hok
        subst hc1
        rfl
  · intro contract_id u db c0 c db' h hok
    unfold ContractService.sign_contract at hok
    rw [h] at hok
    simp only at hok
    split at hok
    · exact absurd hok (by simp)
    · split at hok
      · exact absurd hok (by simp)
      · split at hok
        · exact absurd hok (by simp)
        · rename_i hnotsigned
          simp only [Except.ok.injEq, Prod.mk.injEq] at hok
          obtain ⟨hc1, hd1⟩ := hok
          subst hc1
          subst hd1
          exact ⟨by simpa using hnotsigned, rfl, rfl, rfl⟩
  · intro contract_id amt u db c0 c db' h hok
    unfold ContractService.update_payment at hok
    rw [h] at hok
    simp only at hok
    split at hok
    · exact absurd hok (by simp)
    · split at hok
      · exact absurd hok (by simp)
      · simp only [Except.ok.injEq, Prod.mk.injEq] at hok
        obtain ⟨hc1, hd1⟩ := hok
        subst hc1
        subst hd1
        exact ⟨rfl, rfl, rfl⟩
  · intro contract_id u ta ad sg db c0 c db' h hok
    unfold ContractService.update_contract at hok
    rw [h] at hok
    simp only at hok
    split at hok
    · exact absurd hok (by simp)
    · split at hok
      · exact absurd hok (by simp)
      · simp only [Except.ok.injEq, Prod.mk.injEq] at hok
        obtain ⟨hc1, hd1⟩ := hok
        subst hc1
        subst hd1
        cases ta <;> cases ad <;> cases sg <;> simp
  · intro db c x hx
    rcases List.mem_map.1 hx with ⟨y, hy, hxy⟩
    by_cases hyc : (y.id == c.id) = true
    · left
      rw [← hxy]
      simp [hyc]
    · right
      rw [← hxy]
      simp only [hyc]
      simpa using hy

/-- C5 amended witness: a successful sign of `unsignedContractB` by
management satisfies the sign-transition characterization. -/
theorem contract_signed_lifecycle_witness :
    unsignedContractB.signed = false
    ∧ unsignedContractB.sign_contract.signed = true
    ∧ unsignedContractB.sign_contract.id = unsignedContractB.id
    ∧ baseDB.setContract unsignedContractB.sign_contract
        = baseDB.setContract unsignedContractB.sign_contract :=
  contract_signed_lifecycle.2.1 2 mgmtUser baseDB unsignedContractB
    unsignedContractB.sign_contract
    (baseDB.setContract unsignedContractB.sign_contract) rfl rfl

/-- C6: for an existing client, a COMMERCIAL caller's `update_client`
fails with `PermissionError "You can only update your own clients"`
exactly when the client's `commercial_id` differs from the caller's id;
an owning COMMERCIAL caller and a MANAGEMENT caller never receive any
`PermissionError` from it. -/
theorem update_client_ownership :
    (∀ (client_id : Nat) (u : User) (fn em ph co : Option String)
        (ci : Option Nat) (db : DB) (c0 : Client),
        db.getClient client_id = some c0 → u.department = .COMMERCIAL →
        (ClientService.update_client client_id u fn em ph co ci db
            = .error (.permissionError "You can only update your own clients")
          ↔ c0.commercial_id ≠ some u.id))
    ∧ (∀ (client_id : Nat) (u : User) (fn em ph co : Option String)
        (ci : Option Nat) (db : DB) (c0 : Client),
        db.getClient client_id = some c0 → u.department = .COMMERCIAL →
        c0.commercial_id = some u.id →
        ∀ msg, ClientService.update_client client_id u fn em ph co ci db
            ≠ .error (.permissionError msg))
    ∧ (∀ (client_id : Nat) (u : User) (fn em ph co : Option String)
        (ci : Option Nat) (db : DB) (c0 : Client),
        db.getClient client_id = some c0 → u.department = .MANAGEMENT →
        ∀ msg, ClientService.update_client client_id u fn em ph co ci db
            ≠ .error (.permissionError msg)) := by
  refine ⟨?_, ?_, ?_⟩
  · intro client_id u fn em ph co ci db c0 h hdep
    unfold ClientService.update_client
    rw [h]
    by_cases hown : c0.commercial_id = some u.id
    · simp only [User.is_commercial, User.is_management, hdep, hown]
      cases em <;> simp <;> split <;> simp
    · have hbeq : (c0.commercial_id == some u.id) = false := by
        simpa using hown
      simp [User.is_commercial, User.is_management, hdep, hbeq, hown]
  · intro client_id u fn em ph co ci db c0 h hdep hown msg
    unfold ClientService.update_client
    rw [h]
    simp only [User.is_commercial, User.is_management, hdep, hown]
    cases em <;> simp <;> split <;> simp
  · intro client_id u fn em ph co ci db c0 h hdep msg
    unfold ClientService.update_client
    rw [h]
    simp only [User.is_commercial, User.is_management, hdep]
    cases em <;> simp <;> split <;> simp

/-- C6 witness: `otherCommUser` does not own `clientA` and is denied with
the ownership message; `commUser` owns it and the same call by them is
not a permission failure. -/
theorem update_client_ownership_witness :
    (ClientService.update_client 1 otherCommUser (some "New Name") none none
          none none baseDB
        = .error (.permissionError "You can only update your own clients")
      ↔ clientA.commercial_id ≠ some otherCommUser.id)
    ∧ ClientService.update_client 1 commUser (some "New Name") none none
          none none baseDB
        ≠ .error (.permissionError "You can only update your own clients") :=
  ⟨update_client_ownership.1 1 otherCommUser (some "New Name") none none
      none none baseDB clientA rfl rfl,
   update_client_ownership.2.1 1 commUser (some "New Name") none none
      none none baseDB clientA rfl rfl rfl
      "You can only update your own clients"⟩

/-- C7: for an existing event, a SUPPORT caller's `update_event` succeeds
exactly when the event's `support_contact_id` equals the caller's id and
is otherwise denied with "You can only update events assigned to you"; a
MANAGEMENT caller always succeeds; a COMMERCIAL caller is always denied
event update. -/
theorem update_event_ownership :
    (∀ (event_id : Nat) (u : User) (nm : Option String) (ds de : Option Int)
        (loc : Option String) (att : Option Int) (nt : Option String)
        (db : DB) (e0 : Event),
        db.getEvent event_id = some e0 → u.department = .SUPPORT →
        e0.support_contact_id = some u.id →
        EventService.update_event event_id u nm ds de loc att nt db
          = .ok (applyEventUpdate e0 nm ds de loc att nt,
                 db.setEvent (applyEventUpdate e0 nm ds de loc att nt)))
    ∧ (∀ (event_id : Nat) (u : User) (nm : Option String) (ds de : Option Int)
        (loc : Option String) (att : Option Int) (nt : Option String)
        (db : DB) (e0 : Event),
        db.getEvent event_id = some e0 → u.department = .SUPPORT →
        e0.support_contact_id ≠ some u.id →
        EventService.update_event event_id u nm ds de loc att nt db
          = .error (.permissionError "You can only update events assigned to you"))
    ∧ (∀ (event_id : Nat) (u : User) (nm : Option String) (ds de : Option Int)
        (loc : Option String) (att : Option Int) (nt : Option String)
        (db : DB) (e0 : Event),
        db.getEvent event_id = some e0 → u.department = .MANAGEMENT →
        EventService.update_event event_id u nm ds de loc att nt db
          = .ok (applyEventUpdate e0 nm ds de loc att nt,
                 db.setEvent (applyEventUpdate e0 nm ds de loc att nt)))
    ∧ (∀ (event_id : Nat) (u : User) (nm : Option String) (ds de : Option Int)
        (loc : Option String) (att : Option Int) (nt : Option String)
        (db : DB) (e0 : Event),
        db.getEvent event_id = some e0 → u.department = .COMMERCIAL →
        EventService.update_event event_id u nm ds de loc att nt db
          = .error (.permissionError
              "You don\x27t have permission to update events")) := by
  refine ⟨?_, ?_, ?_, ?_⟩
  · intro event_id u nm ds de loc att nt db e0 h hdep hown
    unfold EventService.update_event
    rw [h]
    simp [User.is_support, User.is_management, hdep, hown]
  · intro event_id u nm ds de loc att nt db e0 h hdep hown
    unfold EventService.update_event
    rw [h]
    have hbeq : (e0.support_contact_id == some u.id) = false := by
      simpa using hown
    simp [User.is_support, User.is_management, hdep, hbeq]
  · intro event_id u nm ds de loc att nt db e0 h hdep
    unfold EventService.update_event
    rw [h]
    simp [User.is_support, User.is_management, hdep]
  · intro event_id u nm ds de loc att nt db e0 h hdep
    unfold EventService.update_event
    rw [h]
    simp [User.is_support, User.is_management, hdep]

/-- C7 witness: `suppUser` is assigned to `eventA` and successfully
updates it; `otherSuppUser` is denied with the assignment message;
`commUser` is denied event update outright. -/
theorem update_event_ownership_witness :
    EventService.update_event 1 suppUser none none none none (some 75)
        none baseDB
      = .ok (applyEventUpdate eventA none none none none (some 75) none,
             baseDB.setEvent
               (applyEventUpdate eventA none none none none (some 75) none))
    ∧ EventService.update_event 1 otherSuppUser none none none none (some 75)
          none baseDB
        = .error (.permissionError "You can only update events assigned to you")
    ∧ EventService.update_event 1 commUser none none none none (some 75)
          none baseDB
        = .error (.permissionError
            "You don\x27t have permission to update events") :=
  ⟨update_event_ownership.1 1 suppUser none none none none (some 75) none
      baseDB eventA rfl rfl rfl,
   update_event_ownership.2.1 1 otherSuppUser none none none none (some 75)
      none baseDB eventA rfl rfl (by decide),
   update_event_ownership.2.2.2 1 commUser none none none none (some 75)
      none baseDB eventA rfl rfl⟩

/-- C8: the management-only gate of `assign_support_contact` holds (any
non-MANAGEMENT caller is denied), but for a MANAGEMENT caller the call
never succeeds either: the integer `support_contact_id` is passed to
`AuthService.get_current_user`, which JWT-decodes its argument, so the
lookup always yields `None` and the call fails with
`ValueError "Invalid support contact ID"` — even in `baseDB`, where the
target id 3 is an existing, active SUPPORT user and event 1 exists. -/
theorem assign_support_contact_always_rejects :
    (∀ (event_id scid : Nat) (u : User) (db : DB), u.is_management = true →
        EventService.assign_support_contact event_id scid u db
          = .error (.valueError "Invalid support contact ID"))
    ∧ (∀ (event_id scid : Nat) (u : User) (db : DB), u.is_management = false →
        EventService.assign_support_contact event_id scid u db
          = .error (.permissionError "Only management can assign support contacts"))
    ∧ EventService.assign_support_contact 1 3 mgmtUser baseDB
        = .error (.valueError "Invalid support contact ID")
    ∧ (baseDB.getUser 3 = some suppUser ∧ suppUser.is_support = true
        ∧ suppUser.is_active = true ∧ baseDB.getEvent 1 = some eventA) := by
  refine ⟨?_, ?_, rfl, rfl, rfl, rfl, rfl⟩
  · intro event_id scid u db hm
    unfold EventService.assign_support_contact
    simp [hm, AuthService.get_current_user_intArg, decode_access_token_intArg]
  · intro event_id scid u db hm
    unfold EventService.assign_support_contact
    simp [hm]

/-- C8 witness: the management-side rejection and the non-management
denial, both at concrete inputs in `baseDB`. -/
theorem assign_support_contact_always_rejects_witness :
    EventService.assign_support_contact 1 6 mgmtUser baseDB
        = .error (.valueError "Invalid support contact ID")
    ∧ EventService.assign_support_contact 1 3 commUser baseDB
        = .error (.permissionError "Only management can assign support contacts") :=
  ⟨assign_support_contact_always_rejects.1 1 6 mgmtUser baseDB rfl,
   assign_support_contact_always_rejects.2.1 1 3 commUser baseDB rfl⟩

/-- C9 counterexample: `create_event` called with start timestamp 5 and
end timestamp 3 (start ≥ end) on the signed contract `signedContractA`
succeeds and persists the inverted dates — no date-ordering rejection
exists. -/
theorem event_date_order_counterexample :
    EventService.create_event "Launch" 1 5 3 "Paris" 10 none mgmtUser baseDB
        = .ok (badEvent, { baseDB with events := baseDB.events ++ [badEvent] })
    ∧ badEvent.event_date_start = 5 ∧ badEvent.event_date_end = 3
    ∧ ¬ badEvent.event_date_start < badEvent.event_date_end :=
  ⟨rfl, rfl, rfl, by decide⟩

/-- C9 amended: `create_event` performs no ordering check on
`event_date_start` and `event_date_end`: for any two timestamps, in any
order, a caller passing the permission, existence, signed-contract and
ownership gates gets an event persisting exactly the given dates. -/
theorem create_event_no_date_validation :
    ∀ (name : String) (contract_id : Nat) (ds de : Int) (loc : String)
      (att : Int) (notes : Option String) (u : User) (db : DB) (c : Contract),
      db.getContract contract_id = some c → c.signed = true →
      u.has_permission "create" "event" = true →
      (u.is_commercial = true → c.commercial_id = some u.id) →
      EventService.create_event name contract_id ds de loc att notes u db
          = .ok (newEventRow db name contract_id ds de loc att notes,
                 { db with events := db.events
                     ++ [newEventRow db name contract_id ds de loc att notes] })
        ∧ (newEventRow db name contract_id ds de loc att notes).event_date_start
            = ds
        ∧ (newEventRow db name contract_id ds de loc att notes).event_date_end
            = de := by
  intro name contract_id ds de loc att notes u db c h hsigned hperm hown
  refine ⟨?_, rfl, rfl⟩
  unfold EventService.create_event
  rw [h]
  cases hc : u.is_commercial with
  | false => simp [hperm, hsigned, hc, newEventRow]
  | true => simp [hperm, hsigned, hc, hown hc, newEventRow]

/-- C9 amended witness: management creates an event with start 5 and end
3 on the signed contract; the stored dates are exactly 5 and 3. -/
theorem create_event_no_date_validation_witness :
    EventService.create_event "Kickoff" 1 5 3 "Lyon" 20 none mgmtUser baseDB
        = .ok (newEventRow baseDB "Kickoff" 1 5 3 "Lyon" 20 none,
               { baseDB with events := baseDB.events
                   ++ [newEventRow baseDB "Kickoff" 1 5 3 "Lyon" 20 none] })
      ∧ (newEventRow baseDB "Kickoff" 1 5 3 "Lyon" 20 none).event_date_start = 5
      ∧ (newEventRow baseDB "Kickoff" 1 5 3 "Lyon" 20 none).event_date_end = 3 :=
  create_event_no_date_validation "Kickoff" 1 5 3 "Lyon" 20 none mgmtUser
    baseDB signedContractA rfl rfl rfl (fun hc => absurd hc (by decide))

/-- C10: when a COMMERCIAL caller updates a client it owns and passes a
`commercial_id` argument, that argument is silently ignored — the stored
owner is unchanged while every other requested field update is applied —
whereas for a MANAGEMENT caller the same argument reassigns the owner. -/
theorem update_client_commercial_id_scope :
    (∀ (client_id : Nat) (u : User) (fn em ph co : Option String)
        (newcid : Nat) (db : DB) (c0 c : Client) (db' : DB),
        db.getClient client_id = some c0 → u.department = .COMMERCIAL →
        ClientService.update_client client_id u fn em ph co (some newcid) db
          = .ok (c, db') →
        c.commercial_id = c0.commercial_id
        ∧ c.full_name = fn.getD c0.full_name
        ∧ c.email = em.getD c0.email
        ∧ c.phone = ph.getD c0.phone
        ∧ c.company_name = co.getD c0.company_name
        ∧ db' = db.setClient c)
    ∧ (∀ (client_id : Nat) (u : User) (fn em ph co : Option String)
        (newcid : Nat) (db : DB) (c0 c : Client) (db' : DB),
        db.getClient client_id = some c0 → u.department = .MANAGEMENT →
        ClientService.update_client client_id u fn em ph co (some newcid) db
          = .ok (c, db') →
        c.commercial_id = some newcid) := by
  constructor
  · intro client_id u fn em ph co newcid db c0 c db' h hdep hok
    unfold ClientService.update_client at hok
    rw [h] at hok
    simp only at hok
    split at hok
    · exact absurd hok (by simp)
    · split at hok
      · exact absurd hok (by simp)
      · split at hok
        · exact absurd hok (by simp)
        · simp only [Except.ok.injEq, Prod.mk.injEq] at hok
          obtain ⟨hc1, hd1⟩ := hok
          subst hc1
          subst hd1
          have hmg : u.is_management = false := by
            simp [User.is_management, hdep]
          refine ⟨?_, ?_, ?_, ?_, ?_, rfl⟩ <;>
            cases fn <;> cases em <;> cases ph <;> cases co <;>
              simp [applyClientUpdate, hmg]
  · intro client_id u fn em ph co newcid db c0 c db' h hdep hok
    unfold ClientService.update_client at hok
    rw [h] at hok
    simp only at hok
    split at hok
    · exact absurd hok (by simp)
    · split at hok
      · exact absurd hok (by simp)
      · split at hok
        · exact absurd hok (by simp)
        · simp only [Except.ok.injEq, Prod.mk.injEq] at hok
          obtain ⟨hc1, hd1⟩ := hok
          subst hc1
          have hmg : u.is_management = true := by
            simp [User.is_management, hdep]
          cases fn <;> cases em <;> cases ph <;> cases co <;>
            simp [applyClientUpdate, hmg]

/-- C10 witness: `commUser` updates its own `clientA` passing
`commercial_id = 99`; the committed row keeps owner 2 and applies the
requested name change. -/
theorem update_client_commercial_id_scope_witness :
    ({ clientA with full_name := "Renamed" } : Client).commercial_id
        = clientA.commercial_id
    ∧ ({ clientA with full_name := "Renamed" } : Client).full_name
        = (some "Renamed").getD clientA.full_name
    ∧ ({ clientA with full_name := "Renamed" } : Client).email
        = (none : Option String).getD clientA.email
    ∧ ({ clientA with full_name := "Renamed" } : Client).phone
        = (none : Option String).getD clientA.phone
    ∧ ({ clientA with full_name := "Renamed" } : Client).company_name
        = (none : Option String).getD clientA.company_name
    ∧ baseDB.setClient { clientA with full_name := "Renamed" }
        = baseDB.setClient { clientA with full_name := "Renamed" } :=
  update_client_commercial_id_scope.1 1 commUser (some "Renamed") none none
    none 99 baseDB clientA { clientA with full_name := "Renamed" }
    (baseDB.setClient { clientA with full_name := "Renamed" }) rfl rfl rfl

end EpicEvents
